import Mathlib

/-
Verification of the SceneLens model container codec and validators.

The embedded program parts:
- create_tflite_header and the buffer construction of create_mobilenet_placeholder
  (src/assets/models/create_placeholder_models.py): magic, little-endian u32
  version, little-endian u32 metadata length, metadata bytes, payload bytes.
- validate_tflite_file and validate_model_config (src/assets/models/validate_models.py).
- the batch aggregation of main (src/assets/models/validate_models.py).

Bytes are modelled as natural numbers; buffers and files as lists of bytes.
-/

/-- Little-endian packing of a 32-bit unsigned integer, as struct.pack with
the format string of an unsigned little-endian 32-bit value produces. -/
def pack32 (n : Nat) : List Nat :=
  [n % 256, n / 256 % 256, n / 65536 % 256, n / 16777216 % 256]

/-- Little-endian reading of a byte list, as struct.unpack of an unsigned
little-endian 32-bit value does on a 4-byte slice. -/
def le32 : List Nat → Nat
  | [] => 0
  | b :: bs => b + 256 * le32 bs

/-- The magic token b TFL3 as a byte list. -/
def tfliteMagic : List Nat := [0x54, 0x46, 0x4C, 0x33]

/-- From create_placeholder_models.py: the fixed 8-byte header, magic followed
by the little-endian version 3. -/
def create_tflite_header : List Nat := tfliteMagic ++ pack32 3

/-- From create_mobilenet_placeholder in create_placeholder_models.py: the
buffer is header, then the little-endian length of the metadata bytes, then
the metadata bytes, then the payload bytes, with metadata and payload left
abstract. -/
def encode (metadata payload : List Nat) : List Nat :=
  create_tflite_header ++ pack32 metadata.length ++ metadata ++ payload

/-- The decoded artifact of the container format: version, metadata bytes,
payload bytes, and the total buffer length. -/
structure Artifact where
  version : Nat
  metadata : List Nat
  payload : List Nat
  totalLength : Nat
  deriving DecidableEq, Repr

/-- The decode failure taxonomy of the specification. -/
inductive DecodeError where
  | truncatedHeader
  | badMagic (actual : List Nat)
  | unsupportedVersion (v : Nat)
  | truncatedMetadata
  deriving DecidableEq, Repr

/-- Modelled from the spec: the repository implements no full Decode routine
(validate_tflite_file in validate_models.py checks only the magic and the
version and never reads the metadata length), so the metadata and payload
steps follow the specification: header check on 8 bytes, magic check,
little-endian version check against 3, little-endian metadata length at
offsets 8..12, truncated-metadata check, then the split of metadata from
payload at offset 12 plus the metadata length. -/
def decode (buf : List Nat) : Except DecodeError Artifact :=
  if buf.length < 8 then .error .truncatedHeader
  else if buf.take 4 ≠ tfliteMagic then .error (.badMagic (buf.take 4))
  else if le32 ((buf.drop 4).take 4) ≠ 3 then
    .error (.unsupportedVersion (le32 ((buf.drop 4).take 4)))
  else if buf.length < 12 + le32 ((buf.drop 8).take 4) then .error .truncatedMetadata
  else .ok ⟨le32 ((buf.drop 4).take 4),
            (buf.drop 12).take (le32 ((buf.drop 8).take 4)),
            buf.drop (12 + le32 ((buf.drop 8).take 4)),
            buf.length⟩

/-- The state of a file as seen by validate_tflite_file: the path does not
exist, opening or reading it raises, or it has some byte content. -/
inductive FileState where
  | notFound
  | readFails
  | content (bytes : List Nat)
  deriving DecidableEq, Repr

/-- The information content of the reason string returned by
validate_tflite_file: each constructor carries exactly the data interpolated
into the corresponding message of validate_models.py. -/
inductive Reason where
  | fileNotFound
  | badMagic (actual : List Nat)
  | unsupportedVersion (v : Nat)
  | readError
  | valid (sizeBytes : Nat)
  deriving DecidableEq, Repr

/-- A reason is a success reason exactly when it is the valid-file message. -/
def Reason.isOk : Reason → Bool
  | .valid _ => true
  | _ => false

/-- From validate_models.py: validate_tflite_file. A missing file returns the
not-found report; any raised exception is caught and returned as a reading
error, which covers a read of fewer than 4 version bytes, where struct.unpack
raises; otherwise the first 4 bytes are compared with the magic and the next
4 bytes, little-endian, with version 3, and on success the report carries the
total file size. -/
def validate_tflite_file : FileState → Bool × Reason
  | .notFound => (false, .fileNotFound)
  | .readFails => (false, .readError)
  | .content bytes =>
    if bytes.take 4 ≠ tfliteMagic then (false, .badMagic (bytes.take 4))
    else if bytes.length < 8 then (false, .readError)
    else if le32 ((bytes.drop 4).take 4) ≠ 3 then
      (false, .unsupportedVersion (le32 ((bytes.drop 4).take 4)))
    else (true, .valid bytes.length)

lemma le32_pack32 (n : Nat) (h : n < 4294967296) : le32 (pack32 n) = n := by
  simp [le32, pack32]
  omega

lemma encode_length (md pl : List Nat) :
    (encode md pl).length = 12 + md.length + pl.length := by
  simp [encode, create_tflite_header, tfliteMagic, pack32]
  omega

/-- Claim C7: encoding metadata of the two brace bytes with an empty payload
yields exactly the 14-byte buffer 54 46 4C 33 03 00 00 00 02 00 00 00 7B 7D,
and decoding that buffer returns version 3, the same metadata, and an empty
payload. -/
theorem concrete_encode_C7 :
    encode [0x7B, 0x7D] [] =
      [0x54, 0x46, 0x4C, 0x33, 0x03, 0x00, 0x00, 0x00,
       0x02, 0x00, 0x00, 0x00, 0x7B, 0x7D] ∧
    decode [0x54, 0x46, 0x4C, 0x33, 0x03, 0x00, 0x00, 0x00,
            0x02, 0x00, 0x00, 0x00, 0x7B, 0x7D] =
      .ok ⟨3, [0x7B, 0x7D], [], 14⟩ :=
  ⟨rfl, rfl⟩

/-- Claim C4: every buffer strictly shorter than 8 bytes decodes to the
truncated-header failure, before any magic or version check. -/
theorem truncated_header_C4 (buf : List Nat) (h : buf.length < 8) :
    decode buf = .error .truncatedHeader := by
  unfold decode
  rw [if_pos h]

theorem truncated_header_C4_witness :
    ([0, 1, 2] : List Nat).length < 8 ∧
    decode [0, 1, 2] = .error .truncatedHeader :=
  ⟨by decide, truncated_header_C4 [0, 1, 2] (by decide)⟩

/-- Claim C2: for every file content of length at least 4 whose first 4 bytes
differ from the magic token, validate_tflite_file fails and reports the bad
magic with the actual bytes observed, regardless of the remaining content. -/
theorem magic_rejection_C2 (bytes : List Nat) (_h4 : 4 ≤ bytes.length)
    (hm : bytes.take 4 ≠ tfliteMagic) :
    validate_tflite_file (.content bytes) = (false, .badMagic (bytes.take 4)) := by
  simp only [validate_tflite_file]
  rw [if_pos hm]

theorem magic_rejection_C2_witness :
    4 ≤ ([0, 0, 0, 0, 5] : List Nat).length ∧
    ([0, 0, 0, 0, 5] : List Nat).take 4 ≠ tfliteMagic ∧
    validate_tflite_file (.content [0, 0, 0, 0, 5]) =
      (false, .badMagic [0, 0, 0, 0]) :=
  ⟨by decide, by decide,
   magic_rejection_C2 [0, 0, 0, 0, 5] (by decide) (by decide)⟩

/-- Claim C3: for every file content of length at least 8 whose first 4 bytes
equal the magic but whose bytes at offsets 4..8, read little-endian, differ
from 3, validate_tflite_file fails and reports the unsupported version with
the value observed. -/
theorem version_rejection_C3 (bytes : List Nat) (h8 : 8 ≤ bytes.length)
    (hm : bytes.take 4 = tfliteMagic)
    (hv : le32 ((bytes.drop 4).take 4) ≠ 3) :
    validate_tflite_file (.content bytes) =
      (false, .unsupportedVersion (le32 ((bytes.drop 4).take 4))) := by
  simp only [validate_tflite_file]
  rw [if_neg (by simp [hm]), if_neg (by omega), if_pos hv]

theorem version_rejection_C3_witness :
    8 ≤ ([0x54, 0x46, 0x4C, 0x33, 2, 0, 0, 0] : List Nat).length ∧
    ([0x54, 0x46, 0x4C, 0x33, 2, 0, 0, 0] : List Nat).take 4 = tfliteMagic ∧
    le32 ((([0x54, 0x46, 0x4C, 0x33, 2, 0, 0, 0] : List Nat).drop 4).take 4) ≠ 3 ∧
    validate_tflite_file (.content [0x54, 0x46, 0x4C, 0x33, 2, 0, 0, 0]) =
      (false, .unsupportedVersion 2) :=
  ⟨by decide, by decide, by decide,
   version_rejection_C3 [0x54, 0x46, 0x4C, 0x33, 2, 0, 0, 0]
     (by decide) (by decide) (by decide)⟩

/-- Claim C10: for every file content of length at least 8 whose first 4
bytes equal the magic and whose bytes at offsets 4..8 read little-endian to
3, validate_tflite_file succeeds and reports the total size, independent of
everything after offset 8; the metadata length, metadata, and payload are
never inspected. -/
theorem header_only_acceptance_C10 (bytes : List Nat) (h8 : 8 ≤ bytes.length)
    (hm : bytes.take 4 = tfliteMagic)
    (hv : le32 ((bytes.drop 4).take 4) = 3) :
    validate_tflite_file (.content bytes) = (true, .valid bytes.length) := by
  simp only [validate_tflite_file]
  rw [if_neg (by simp [hm]), if_neg (by omega), if_neg (by simp [hv])]

theorem header_only_acceptance_C10_witness :
    8 ≤ ([0x54, 0x46, 0x4C, 0x33, 3, 0, 0, 0] : List Nat).length ∧
    ([0x54, 0x46, 0x4C, 0x33, 3, 0, 0, 0] : List Nat).take 4 = tfliteMagic ∧
    le32 ((([0x54, 0x46, 0x4C, 0x33, 3, 0, 0, 0] : List Nat).drop 4).take 4) = 3 ∧
    validate_tflite_file (.content [0x54, 0x46, 0x4C, 0x33, 3, 0, 0, 0]) =
      (true, .valid 8) :=
  ⟨by decide, by decide, by decide,
   header_only_acceptance_C10 [0x54, 0x46, 0x4C, 0x33, 3, 0, 0, 0]
     (by decide) (by decide) (by decide)⟩

lemma encode_take4 (md pl : List Nat) : (encode md pl).take 4 = tfliteMagic := rfl

lemma encode_drop4_take4 (md pl : List Nat) :
    ((encode md pl).drop 4).take 4 = pack32 3 := rfl

lemma encode_drop8_take4 (md pl : List Nat) :
    ((encode md pl).drop 8).take 4 = pack32 md.length := rfl

lemma encode_drop12 (md pl : List Nat) : (encode md pl).drop 12 = md ++ pl := rfl

/-- Claim C1: for every metadata byte list that fits a 32-bit length and
every payload byte list, decoding the encoded buffer returns version 3, the
identical metadata, the identical payload, and the total buffer length. -/
theorem roundtrip_C1 (md pl : List Nat) (h : md.length < 4294967296) :
    decode (encode md pl) = .ok ⟨3, md, pl, (encode md pl).length⟩ := by
  have hml : le32 (((encode md pl).drop 8).take 4) = md.length := by
    rw [encode_drop8_take4, le32_pack32 _ h]
  have hv : le32 (((encode md pl).drop 4).take 4) = 3 := rfl
  have hlen : (encode md pl).length = 12 + md.length + pl.length :=
    encode_length md pl
  have hpl : (encode md pl).drop (12 + md.length) = pl := by
    rw [← List.drop_drop, encode_drop12, List.drop_left]
  unfold decode
  rw [if_neg (by omega), if_neg (by rw [encode_take4]; simp),
      if_neg (by rw [hv]; simp), if_neg (by rw [hml]; omega), hv, hml,
      encode_drop12, List.take_left, hpl]

theorem roundtrip_C1_witness :
    ([1, 2, 3] : List Nat).length < 4294967296 ∧
    decode (encode [1, 2, 3] [9]) =
      .ok ⟨3, [1, 2, 3], [9], (encode [1, 2, 3] [9]).length⟩ :=
  ⟨by decide, roundtrip_C1 [1, 2, 3] [9] (by decide)⟩

/-- Claim C5 counterexample: a 12-byte buffer with correct magic, version 3,
and declared metadata length 4 satisfies 8 plus the declared length equals
the total length, yet decoding fails with the truncated-metadata error
instead of succeeding with an empty payload: the metadata record starts at
offset 12, not 8, so the exact-fit boundary is 12 plus the declared length. -/
theorem truncated_metadata_C5_counterexample :
    8 ≤ ([0x54, 0x46, 0x4C, 0x33, 3, 0, 0, 0, 4, 0, 0, 0] : List Nat).length ∧
    ([0x54, 0x46, 0x4C, 0x33, 3, 0, 0, 0, 4, 0, 0, 0] : List Nat).take 4 = tfliteMagic ∧
    le32 ((([0x54, 0x46, 0x4C, 0x33, 3, 0, 0, 0, 4, 0, 0, 0] : List Nat).drop 4).take 4) = 3 ∧
    8 + le32 ((([0x54, 0x46, 0x4C, 0x33, 3, 0, 0, 0, 4, 0, 0, 0] : List Nat).drop 8).take 4) =
      ([0x54, 0x46, 0x4C, 0x33, 3, 0, 0, 0, 4, 0, 0, 0] : List Nat).length ∧
    decode [0x54, 0x46, 0x4C, 0x33, 3, 0, 0, 0, 4, 0, 0, 0] = .error .truncatedMetadata :=
  ⟨by decide, by decide, by decide, by decide, rfl⟩

/-- Claim C5 (amended): for every buffer of length at least 8 with correct
magic and version, decoding fails with the truncated-metadata error whenever
12 plus the declared metadata length (the little-endian u32 at offsets 8..12)
exceeds the total length, and succeeds with an empty payload whenever 12 plus
the declared metadata length equals the total length. -/
theorem truncated_metadata_C5 (buf : List Nat) (h8 : 8 ≤ buf.length)
    (hm : buf.take 4 = tfliteMagic) (hv : le32 ((buf.drop 4).take 4) = 3) :
    (buf.length < 12 + le32 ((buf.drop 8).take 4) →
      decode buf = .error .truncatedMetadata) ∧
    (buf.length = 12 + le32 ((buf.drop 8).take 4) →
      decode buf = .ok ⟨3, (buf.drop 12).take (le32 ((buf.drop 8).take 4)),
                        [], buf.length⟩) := by
  constructor
  · intro hlt
    unfold decode
    rw [if_neg (by omega), if_neg (by simp [hm]), if_neg (by simp [hv]), if_pos hlt]
  · intro heq
    unfold decode
    rw [if_neg (by omega), if_neg (by simp [hm]), if_neg (by simp [hv]),
        if_neg (by omega), hv]
    have hnil : buf.drop (12 + le32 ((buf.drop 8).take 4)) = [] := by
      rw [List.drop_eq_nil_iff]
      omega
    rw [hnil]

theorem truncated_metadata_C5_witness :
    (8 ≤ ([0x54, 0x46, 0x4C, 0x33, 3, 0, 0, 0, 1, 0, 0, 0, 7] : List Nat).length ∧
     ([0x54, 0x46, 0x4C, 0x33, 3, 0, 0, 0, 1, 0, 0, 0, 7] : List Nat).take 4 = tfliteMagic ∧
     le32 ((([0x54, 0x46, 0x4C, 0x33, 3, 0, 0, 0, 1, 0, 0, 0, 7] : List Nat).drop 4).take 4) = 3) ∧
    ((([0x54, 0x46, 0x4C, 0x33, 3, 0, 0, 0, 1, 0, 0, 0, 7] : List Nat).length <
        12 + le32 ((([0x54, 0x46, 0x4C, 0x33, 3, 0, 0, 0, 1, 0, 0, 0, 7] : List Nat).drop 8).take 4) →
      decode [0x54, 0x46, 0x4C, 0x33, 3, 0, 0, 0, 1, 0, 0, 0, 7] = .error .truncatedMetadata) ∧
     (([0x54, 0x46, 0x4C, 0x33, 3, 0, 0, 0, 1, 0, 0, 0, 7] : List Nat).length =
        12 + le32 ((([0x54, 0x46, 0x4C, 0x33, 3, 0, 0, 0, 1, 0, 0, 0, 7] : List Nat).drop 8).take 4) →
      decode [0x54, 0x46, 0x4C, 0x33, 3, 0, 0, 0, 1, 0, 0, 0, 7] =
        .ok ⟨3, (([0x54, 0x46, 0x4C, 0x33, 3, 0, 0, 0, 1, 0, 0, 0, 7] : List Nat).drop 12).take
                  (le32 ((([0x54, 0x46, 0x4C, 0x33, 3, 0, 0, 0, 1, 0, 0, 0, 7] : List Nat).drop 8).take 4)),
              [], ([0x54, 0x46, 0x4C, 0x33, 3, 0, 0, 0, 1, 0, 0, 0, 7] : List Nat).length⟩)) :=
  ⟨⟨by decide, by decide, by decide⟩,
   truncated_metadata_C5 [0x54, 0x46, 0x4C, 0x33, 3, 0, 0, 0, 1, 0, 0, 0, 7]
     (by decide) (by decide) (by decide)⟩

/-- Claim C6: validate_tflite_file is total at its boundary: a missing file
and a failing read each produce a captured failure report rather than an
exception, and on every file state the boolean pass flag agrees with whether
the reason is the success reason, so every failure is a report with a false
flag. -/
theorem validate_total_C6 :
    validate_tflite_file .notFound = (false, .fileNotFound) ∧
    validate_tflite_file .readFails = (false, .readError) ∧
    ∀ fs : FileState,
      (validate_tflite_file fs).fst = ((validate_tflite_file fs).snd).isOk := by
  refine ⟨rfl, rfl, ?_⟩
  intro fs
  cases fs with
  | notFound => rfl
  | readFails => rfl
  | content bytes =>
    simp only [validate_tflite_file]
    split_ifs <;> rfl

/-- A parsed configuration descriptor, shallowly: whether the models key is
present, and for each model identifier the list of keys present in its
entry; validate_model_config inspects nothing else of the JSON values. -/
structure ConfigJson where
  models : Option (List (String × List String))
  deriving DecidableEq, Repr

/-- The state of the configuration file as seen by validate_model_config:
missing, unparseable JSON, or parsed content. -/
inductive ConfigState where
  | notFound
  | badJson
  | parsed (c : ConfigJson)
  deriving DecidableEq, Repr

/-- The information content of the reason string returned by
validate_model_config, one constructor per message of validate_models.py. -/
inductive CReason where
  | configNotFound
  | invalidJson
  | missingModelsKey
  | missingModel (m : String)
  | missingKey (k m : String)
  | validConfig
  deriving DecidableEq, Repr

/-- From validate_models.py: the required model identifiers, in the order the
loop visits them. -/
def requiredModels : List String := ["mobilenet_v3_small", "yamnet_lite"]

/-- From validate_models.py: the required keys of each model entry, in the
order the loop visits them. -/
def requiredKeys : List String := ["filename", "type", "input_shape", "output_shape"]

/-- The inner key loop of validate_model_config: the first required key not
present in the entry, if any. -/
def firstMissingKey (entryKeys : List String) : List String → Option String
  | [] => none
  | k :: rest =>
    if entryKeys.contains k then firstMissingKey entryKeys rest else some k

/-- The outer model loop of validate_model_config: visit the required models
in order, failing on the first missing model or missing key. -/
def checkRequiredModels (ms : List (String × List String)) :
    List String → Bool × CReason
  | [] => (true, .validConfig)
  | m :: rest =>
    match ms.lookup m with
    | none => (false, .missingModel m)
    | some entryKeys =>
      match firstMissingKey entryKeys requiredKeys with
      | some k => (false, .missingKey k m)
      | none => checkRequiredModels ms rest

/-- From validate_models.py: validate_model_config. A missing file or invalid
JSON is a captured failure; a parsed config must have the models key and each
required model entry must contain every required key. -/
def validate_model_config : ConfigState → Bool × CReason
  | .notFound => (false, .configNotFound)
  | .badJson => (false, .invalidJson)
  | .parsed cfg =>
    match cfg.models with
    | none => (false, .missingModelsKey)
    | some ms => checkRequiredModels ms requiredModels

lemma firstMissingKey_mem (entryKeys req : List String) (k : String)
    (h : firstMissingKey entryKeys req = some k) :
    k ∈ req ∧ entryKeys.contains k = false := by
  induction req with
  | nil => simp [firstMissingKey] at h
  | cons r rest ih =>
    by_cases hc : entryKeys.contains r
    · rw [firstMissingKey, if_pos hc] at h
      rcases ih h with ⟨h1, h2⟩
      exact ⟨List.mem_cons_of_mem _ h1, h2⟩
    · rw [firstMissingKey, if_neg hc] at h
      cases h
      exact ⟨List.mem_cons_self .., Bool.eq_false_iff.mpr hc⟩

/-- Claim C9 counterexample: a parsed descriptor whose two required model
entries carry all required keys but which also contains a further model entry
missing the output-shape key passes validate_model_config, so a descriptor
containing some model entry with a missing required key does not always fail
validation: only the two required model entries are checked. -/
theorem descriptor_missing_key_C9_counterexample :
    validate_model_config (.parsed ⟨some
        [("mobilenet_v3_small", requiredKeys), ("yamnet_lite", requiredKeys),
         ("extra_model", ["filename", "type", "input_shape"])]⟩) =
      (true, .validConfig) ∧
    ([("mobilenet_v3_small", requiredKeys), ("yamnet_lite", requiredKeys),
      ("extra_model", ["filename", "type", "input_shape"])].lookup "extra_model" =
        some ["filename", "type", "input_shape"]) ∧
    "output_shape" ∈ requiredKeys ∧
    (["filename", "type", "input_shape"] : List String).contains "output_shape" = false := by
  refine ⟨rfl, rfl, ?_, ?_⟩ <;> decide

/-- Claim C9 (amended): for every parsed descriptor with the models key in
which both required models are present, if either required model entry is
missing one of the required keys, then validate_model_config fails with a
report naming a required model identifier together with a required key that
is indeed absent from that model entry. Entries of identifiers other than
the two required models are never checked. -/
theorem descriptor_missing_key_C9 (ms : List (String × List String))
    (k1 k2 : List String)
    (h1 : ms.lookup "mobilenet_v3_small" = some k1)
    (h2 : ms.lookup "yamnet_lite" = some k2)
    (hmiss : firstMissingKey k1 requiredKeys ≠ none ∨
             firstMissingKey k2 requiredKeys ≠ none) :
    ∃ m entryKeys k, m ∈ requiredModels ∧ ms.lookup m = some entryKeys ∧
      k ∈ requiredKeys ∧ entryKeys.contains k = false ∧
      validate_model_config (.parsed ⟨some ms⟩) = (false, .missingKey k m) := by
  cases hk1 : firstMissingKey k1 requiredKeys with
  | some k =>
    rcases firstMissingKey_mem k1 requiredKeys k hk1 with ⟨hmem, habs⟩
    refine ⟨"mobilenet_v3_small", k1, k, by decide, h1, hmem, habs, ?_⟩
    simp only [validate_model_config, requiredModels, checkRequiredModels, h1, hk1]
  | none =>
    cases hk2 : firstMissingKey k2 requiredKeys with
    | some k =>
      rcases firstMissingKey_mem k2 requiredKeys k hk2 with ⟨hmem, habs⟩
      refine ⟨"yamnet_lite", k2, k, by decide, h2, hmem, habs, ?_⟩
      simp only [validate_model_config, requiredModels, checkRequiredModels,
                 h1, h2, hk1, hk2]
    | none =>
      rcases hmiss with hc | hc <;> exact absurd (by assumption) hc

theorem descriptor_missing_key_C9_witness :
    ([("mobilenet_v3_small", requiredKeys),
      ("yamnet_lite", ["filename", "type", "input_shape"])].lookup
        "mobilenet_v3_small" = some requiredKeys ∧
     [("mobilenet_v3_small", requiredKeys),
      ("yamnet_lite", ["filename", "type", "input_shape"])].lookup
        "yamnet_lite" = some ["filename", "type", "input_shape"] ∧
     (firstMissingKey requiredKeys requiredKeys ≠ none ∨
      firstMissingKey ["filename", "type", "input_shape"] requiredKeys ≠ none)) ∧
    (∃ m entryKeys k, m ∈ requiredModels ∧
      [("mobilenet_v3_small", requiredKeys),
       ("yamnet_lite", ["filename", "type", "input_shape"])].lookup m =
        some entryKeys ∧
      k ∈ requiredKeys ∧ entryKeys.contains k = false ∧
      validate_model_config (.parsed ⟨some
          [("mobilenet_v3_small", requiredKeys),
           ("yamnet_lite", ["filename", "type", "input_shape"])]⟩) =
        (false, .missingKey k m)) :=
  ⟨⟨rfl, rfl, Or.inr (by decide)⟩,
   descriptor_missing_key_C9
     [("mobilenet_v3_small", requiredKeys),
      ("yamnet_lite", ["filename", "type", "input_shape"])]
     requiredKeys ["filename", "type", "input_shape"]
     rfl rfl (Or.inr (by decide))⟩

/-- From main in validate_models.py: the model file names validated by the
batch, in order. -/
def modelFiles : List String := ["mobilenet_v3_small_quant.tflite", "yamnet_lite_quant.tflite"]

/-- The per-file reports the batch loop of main produces, one per model file,
over an abstract file system mapping each path to its state. -/
def mainReports (fs : String → FileState) : List (Bool × Reason) :=
  modelFiles.map fun m => validate_tflite_file (fs m)

/-- From main in validate_models.py: the all-valid flag starts true and is
cleared by every failing per-file report and by a failing configuration
report; no failure stops the loop. -/
def mainAllValid (fs : String → FileState) (cfg : ConfigState) : Bool :=
  ((mainReports fs).foldl (fun acc r => acc && r.fst) true) &&
    (validate_model_config cfg).fst

/-- From main in validate_models.py: the exit status, 0 when every check
passed and 1 otherwise. -/
def mainExit (fs : String → FileState) (cfg : ConfigState) : Nat :=
  if mainAllValid fs cfg then 0 else 1

lemma foldl_and_fst (l : List (Bool × Reason)) (b : Bool) :
    l.foldl (fun acc r => acc && r.fst) b = (b && l.all Prod.fst) := by
  induction l generalizing b with
  | nil => simp
  | cons x xs ih => simp [List.foldl_cons, ih, Bool.and_assoc]

/-- Claim C8: the batch validator produces one report per model file, no
failing file aborts the run, and the exit status is 0 exactly when every
per-file report and the configuration report passed, the logical AND of all
of them. -/
theorem batch_aggregation_C8 (fs : String → FileState) (cfg : ConfigState) :
    (mainReports fs).length = modelFiles.length ∧
    (mainExit fs cfg = 0 ↔
      ((mainReports fs).all Prod.fst = true ∧
       (validate_model_config cfg).fst = true)) := by
  constructor
  · simp [mainReports]
  · rw [mainExit, mainAllValid, foldl_and_fst, Bool.true_and]
    by_cases h : ((mainReports fs).all Prod.fst && (validate_model_config cfg).fst) = true
    · rw [if_pos h]
      simp only [Bool.and_eq_true] at h
      simp [h]
    · rw [if_neg h]
      simp only [Bool.and_eq_true] at h
      simp only [not_and] at h
      constructor
      · intro hc; exact absurd hc (by omega)
      · intro ⟨ha, hb⟩; exact absurd hb (h ha)
